import Mathlib

/-!
Shallow embedding of `fakesnow/transforms.py` (sqlglot-tree rewrite rules that
translate Snowflake SQL to DuckDB SQL) and proofs about the spec's claims.

Modelling conventions, used throughout:

* A sqlglot `exp.Expression` node is embedded as a constructor of `Expression`
  carrying exactly the args the transform functions read or write.  Args that
  the upstream parser always populates (e.g. `Show.terse`, `Set.tag`) are
  plain fields; args that may be absent are `Option` fields (Python's
  `args.get(k)` returning `None` is `none`; `args["k"]` on an absent key is a
  `KeyError`).
* Python exceptions are modelled with `Except PyError`: a rule that can raise
  returns `Except PyError Expression`; a rule whose source has no reachable
  `raise`/`assert` is a plain function `Expression → Expression`.
* `sqlglot.parse_one(sql, read=dialect)` (an external collaborator, out of
  scope per the spec) is embedded as the opaque constructor
  `Expression.parsedSql sql dialect` which just records its arguments.
* Python `str` operations are embedded as executable functions over
  `List Char` (see the `Py` helpers) so that concrete evaluation by `decide`
  and `rfl` goes through the kernel.
-/

namespace Fakesnow

/-- Errors a transform can signal; mirrors the Python exception classes
raised (or raisable) by the code in `transforms.py`. -/
inductive PyError where
  | notImplemented (msg : String)
  | assertionError (msg : String)
  | attributeError (msg : String)
  | valueError (msg : String)
  | indexError (msg : String)
  deriving DecidableEq, Repr

/-- Shallow embedding of the sqlglot expression nodes used by the transforms
under verification.  Field names and order follow the sqlglot args each
transform reads (`this`, `expression`, `expressions`, ...). -/
inductive Expression where
  /-- `exp.Literal` with its text (`this`) and `is_string` flag. -/
  | lit (this : String) (isString : Bool)
  /-- `exp.Identifier` with its text (`this`) and `quoted` flag. -/
  | ident (this : String) (quoted : Bool)
  /-- `exp.Null`. -/
  | nullE
  /-- `exp.Var` (e.g. the `kind` of a `USE` statement); `this` is its text. -/
  | varE (this : String)
  /-- `exp.Column`; `this` is the column's identifier. -/
  | column (this : Expression)
  /-- `exp.Table`; `this` is the table identifier, `db` the optional database
  qualifier. -/
  | table (this : Expression) (db : Option Expression)
  /-- `exp.Use`; `kind` is the optional `SCHEMA`/`DATABASE` var, `this` the
  optional target table. -/
  | use (kind : Option Expression) (this : Option Expression)
  /-- `exp.Command` as produced by the parser for verbatim statements:
  `this` is the leading keyword, `expression` the remaining raw SQL string. -/
  | commandStr (this : String) (expression : String)
  /-- `exp.Command` as constructed by the transforms themselves: `expression`
  is a node (a string literal) and `create_db_name` an optional side-channel
  arg. -/
  | commandNode (this : String) (expression : Expression)
      (create_db_name : Option String)
  /-- `exp.Create`; `kind` is the created object kind (a string arg), `this`
  the created object reference. -/
  | create (kind : Option String) (this : Expression)
  /-- `exp.Show`; `this` names what is shown, `scope_kind`/`scope` the
  optional `IN <kind> <name>` clause, `terse` the parser-populated TERSE
  flag, `limit` an optional limit expression. -/
  | showE (this : String) (scope_kind : Option String) (scope : Option Expression)
      (terse : Bool) (limit : Option Expression)
  /-- `exp.AlterTable`; `this` is the table, `actions` the alteration list. -/
  | alterTable (this : Expression) (actions : List Expression)
  /-- `exp.Set` inside ALTER TABLE actions; only its parser-populated `tag`
  arg is read by the transforms. -/
  | setE (tag : Bool)
  /-- `exp.Bracket`; `this` is the indexed expression, `expressions` the
  index list. -/
  | bracket (this : Expression) (expressions : List Expression)
  /-- `exp.JSONExtract`; `this` the subject, `expression` the JSON path. -/
  | jsonExtract (this : Expression) (expression : Expression)
  /-- `exp.RegexpReplace`; `this` the subject, `expression` the pattern, and
  the optional positional args the parser may set. -/
  | regexpReplace (this : Expression) (expression : Expression)
      (replacement : Option Expression) (position : Option Expression)
      (occurrence : Option Expression) (parameters : Option Expression)
      (modifiers : Option Expression)
  /-- `exp.RegexpExtract` (Snowflake `REGEXP_SUBSTR`); `this` the subject,
  `expression` the pattern, plus optional positional args. -/
  | regexpExtract (this : Expression) (expression : Expression)
      (position : Option Expression) (occurrence : Option Expression)
      (parameters : Option Expression) (group : Option Expression)
  /-- `exp.Anonymous`; `this` is the function name, `expressions` the
  argument list. -/
  | anonymous (this : String) (expressions : List Expression)
  /-- `exp.ToNumber`; `this` the value plus the optional
  `format`/`precision`/`scale` args. -/
  | toNumber (this : Expression) (format : Option Expression)
      (precision : Option Expression) (scale : Option Expression)
  /-- `exp.Cast`; `this` the value, `toType` the target data type (sqlglot
  arg `to`, renamed because `to` is a Lean keyword). -/
  | cast (this : Expression) (toType : Expression)
  /-- `exp.DataType`; `this` is the type tag (e.g. `DECIMAL`), `expressions`
  the type parameters, plus the `nested` and `prefix` flags (the latter
  renamed to `prefixF`). -/
  | dataType (this : String) (expressions : List Expression)
      (nested : Bool) (prefixF : Bool)
  /-- `exp.Struct` (Snowflake `OBJECT_CONSTRUCT`). -/
  | struct (expressions : List Expression)
  /-- `exp.PropertyEQ`, a `key := value` struct member; `expression` is the
  value slot, optional because `Expression.pop` can clear it. -/
  | propertyEq (this : Expression) (expression : Option Expression)
  /-- `exp.Array`. -/
  | arrayE (expressions : List Expression)
  /-- `exp.Slice` with only a start (`this`), as built by `regex_substr`. -/
  | slice (this : Expression)
  /-- Result of `sqlglot.parse_one(sql, read=dialect)` on SQL synthesized by
  a transform; the parser is an external collaborator, so the node just
  records the SQL text and dialect. -/
  | parsedSql (sql : String) (read : String)
  deriving Repr

/-! ### Executable embeddings of the Python string operations used by the
transforms.  They work on `List Char` by structural recursion so concrete
evaluation reduces in the kernel. -/

/-- Python `str.upper()` (ASCII range, which covers the SQL keywords and
identifiers involved). -/
def pyUpper (s : String) : String := ⟨s.data.map Char.toUpper⟩

/-- One pass of `l.replace("\\\\", "\\")` on the char list: each doubled
backslash becomes a single backslash, scanning left to right. -/
def unescapeBackslashes : List Char → List Char
  | [] => []
  | [c] => [c]
  | c₁ :: c₂ :: rest =>
    if c₁ = '\\' ∧ c₂ = '\\' then '\\' :: unescapeBackslashes rest
    else c₁ :: unescapeBackslashes (c₂ :: rest)

/-- Python `s.replace("\\\\", "\\")` as used on regex pattern literals. -/
def pyUnescape (s : String) : String := ⟨unescapeBackslashes s.data⟩

/-- Python `s.replace("e", "")`: drop every `e`. -/
def stripE (s : String) : String := ⟨s.data.filter (· ≠ 'e')⟩

/-- Python `s.strip()`. -/
def pyStrip (s : String) : String :=
  ⟨((s.data.dropWhile Char.isWhitespace).reverse.dropWhile Char.isWhitespace).reverse⟩

/-- Python `s.split(" ")`: split on every single space, keeping empties. -/
def splitSpaceAux (acc : List Char) : List Char → List String
  | [] => [⟨acc.reverse⟩]
  | c :: cs =>
    if c = ' ' then (⟨acc.reverse⟩ : String) :: splitSpaceAux [] cs
    else splitSpaceAux (c :: acc) cs

/-- Python `s.split(" ")`. -/
def pySplitSpace (s : String) : List String := splitSpaceAux [] s.data

/-- Python `s.startswith(t)`. -/
def pyStartsWith (s t : String) : Bool := t.data.isPrefixOf s.data

/-- Python `t in s` (substring containment) for a fixed needle. -/
def containsSubAux (needle : List Char) : List Char → Bool
  | [] => needle.isEmpty
  | c :: cs => needle.isPrefixOf (c :: cs) || containsSubAux needle cs

/-- Python `t in s` (substring containment). -/
def pyContains (s t : String) : Bool := containsSubAux t.data s.data

/-- Digits of a decimal numeral, or `none` if empty / non-digit chars. -/
def digitsVal : List Char → Option Nat
  | [] => none
  | l => l.foldl (fun acc c =>
      match acc with
      | none => none
      | some n => if c.isDigit then some (n * 10 + (c.toNat - 48)) else none)
      (some 0)

/-- Python `int(s)` for a decimal string with optional sign, raising
(`none`) on anything unparsable. -/
def pyInt (s : String) : Option Int :=
  match (pyStrip s).data with
  | '-' :: ds => (digitsVal ds).map (fun n => -(n : Int))
  | '+' :: ds => (digitsVal ds).map (fun n => (n : Int))
  | ds => (digitsVal ds).map (fun n => (n : Int))

/-- Python `repr` of a list of strings, as interpolated by an f-string
(e.g. `['DEFAULT_ROLE']`). -/
def pyReprList (l : List String) : String :=
  "[" ++ String.intercalate ", " (l.map (fun s => "'" ++ s ++ "'")) ++ "]"

/-- Python truthiness of an optional string (`None` and `""` are falsy). -/
def truthy : Option String → Bool
  | none => false
  | some s => s ≠ ""

/-- Python `a or b` for optional strings. -/
def pyOr (a b : Option String) : Option String := if truthy a then a else b

/-- Python `str(x)` for an optional string (`str(None) = "None"`). -/
def pyStrOpt : Option String → String
  | none => "None"
  | some s => s

/-! ### Generic helpers over `Expression`, mirroring the sqlglot node API the
transforms rely on (`name`, `text`, `find`, `find_all`, `sql`). -/

/-- Is this node an `exp.Null`? -/
def isNullE : Expression → Bool
  | .nullE => true
  | _ => false

/-- Is this node an `exp.Literal` with `is_string=True`?  Mirrors sqlglot's
`Expression.is_string` property, which is `False` on every non-literal. -/
def isStringLit : Expression → Bool
  | .lit _ isStr => isStr
  | _ => false

/-- sqlglot `Expression.text(key)` for an arg slot: the arg's text if it is a
string-carrying node, `""` otherwise. -/
def textArg : Option Expression → String
  | some (.ident s _) => s
  | some (.lit s _) => s
  | some (.varE s) => s
  | _ => ""

/-- sqlglot `Expression.name`, i.e. `text("this")`. -/
def nameOf : Expression → String
  | .ident s _ => s
  | .lit s _ => s
  | .varE s => s
  | .table t _ => textArg (some t)
  | .column c => textArg (some c)
  | _ => ""

/-- sqlglot `Table.db`, i.e. `text("db")`. -/
def tableDbText : Expression → String
  | .table _ db => textArg db
  | _ => ""

mutual
/-- Approximation of the external pretty-printer (`Expression.sql()` /
`str(node)`).  The printer is an out-of-scope collaborator; the transforms
only splice its output into synthesized SQL strings and error messages, and
no theorem below depends on its value on composite nodes. -/
def sqlApprox : Expression → String
  | .lit s isStr => if isStr then "'" ++ s ++ "'" else s
  | .ident s q => if q then "\"" ++ s ++ "\"" else s
  | .nullE => "NULL"
  | .varE s => s
  | .column c => sqlApprox c
  | .table t db =>
    (match db with
     | some d => sqlApprox d ++ "."
     | none => "") ++ sqlApprox t
  | .anonymous n es => n ++ "(" ++ sqlApproxList es ++ ")"
  | .cast c t => "CAST(" ++ sqlApprox c ++ " AS " ++ sqlApprox t ++ ")"
  | .dataType n es _ _ =>
    n ++ (if es.isEmpty then "" else "(" ++ sqlApproxList es ++ ")")
  | .bracket t es => sqlApprox t ++ "[" ++ sqlApproxList es ++ "]"
  | .parsedSql s _ => s
  | _ => ""

/-- Comma-separated rendering of an argument list. -/
def sqlApproxList : List Expression → String
  | [] => ""
  | [e] => sqlApprox e
  | e :: e' :: es => sqlApprox e ++ ", " ++ sqlApproxList (e' :: es)
end

/-- Python `str(node.this)` as used by `regex_substr` on the `parameters`
arg: the text itself when `this` is a string (literals, vars, identifiers),
otherwise the rendering of the `this` node. -/
def pyStrThis : Expression → String
  | .lit s _ => s
  | .varE s => s
  | .ident s _ => s
  | .anonymous s _ => s
  | .column c => sqlApprox c
  | .table t _ => sqlApprox t
  | _ => ""

/-- The direct children of a node, in sqlglot arg order: the concatenation
of every expression-valued arg slot. -/
def directChildren : Expression → List Expression
  | .lit _ _ => []
  | .ident _ _ => []
  | .nullE => []
  | .varE _ => []
  | .column c => [c]
  | .table t db => t :: db.toList
  | .use k t => k.toList ++ t.toList
  | .commandStr _ _ => []
  | .commandNode _ e _ => [e]
  | .create _ t => [t]
  | .showE _ _ sc _ li => sc.toList ++ li.toList
  | .alterTable t acts => t :: acts
  | .setE _ => []
  | .bracket t es => t :: es
  | .jsonExtract a b => [a, b]
  | .regexpReplace a b r p o pa m =>
    a :: b :: (r.toList ++ p.toList ++ o.toList ++ pa.toList ++ m.toList)
  | .regexpExtract a b p o pa g =>
    a :: b :: (p.toList ++ o.toList ++ pa.toList ++ g.toList)
  | .anonymous _ es => es
  | .toNumber t f p s => t :: (f.toList ++ p.toList ++ s.toList)
  | .cast a b => [a, b]
  | .dataType _ es _ _ => es
  | .struct es => es
  | .propertyEq k v => k :: v.toList
  | .arrayE es => es
  | .slice t => [t]
  | .parsedSql _ _ => []

mutual
/-- All nodes of the subtree rooted at a node, in the left-to-right preorder
that sqlglot's `walk`/`find`/`find_all` produce. -/
def subnodes : Expression → List Expression
  | e@(.lit _ _) => [e]
  | e@(.ident _ _) => [e]
  | e@(.nullE) => [e]
  | e@(.varE _) => [e]
  | e@(.column c) => e :: subnodes c
  | e@(.table t db) => e :: (subnodes t ++ subnodesO db)
  | e@(.use k t) => e :: (subnodesO k ++ subnodesO t)
  | e@(.commandStr _ _) => [e]
  | e@(.commandNode _ c _) => e :: subnodes c
  | e@(.create _ t) => e :: subnodes t
  | e@(.showE _ _ sc _ li) => e :: (subnodesO sc ++ subnodesO li)
  | e@(.alterTable t acts) => e :: (subnodes t ++ subnodesL acts)
  | e@(.setE _) => [e]
  | e@(.bracket t es) => e :: (subnodes t ++ subnodesL es)
  | e@(.jsonExtract a b) => e :: (subnodes a ++ subnodes b)
  | e@(.regexpReplace a b r p o pa m) =>
    e :: (subnodes a ++ subnodes b ++ subnodesO r ++ subnodesO p ++ subnodesO o
      ++ subnodesO pa ++ subnodesO m)
  | e@(.regexpExtract a b p o pa g) =>
    e :: (subnodes a ++ subnodes b ++ subnodesO p ++ subnodesO o ++ subnodesO pa
      ++ subnodesO g)
  | e@(.anonymous _ es) => e :: subnodesL es
  | e@(.toNumber t f p s) =>
    e :: (subnodes t ++ subnodesO f ++ subnodesO p ++ subnodesO s)
  | e@(.cast a b) => e :: (subnodes a ++ subnodes b)
  | e@(.dataType _ es _ _) => e :: subnodesL es
  | e@(.struct es) => e :: subnodesL es
  | e@(.propertyEq k v) => e :: (subnodes k ++ subnodesO v)
  | e@(.arrayE es) => e :: subnodesL es
  | e@(.slice t) => e :: subnodes t
  | e@(.parsedSql _ _) => [e]

/-- Subtree nodes of an optional child. -/
def subnodesO : Option Expression → List Expression
  | none => []
  | some e => subnodes e

/-- Subtree nodes of a child list. -/
def subnodesL : List Expression → List Expression
  | [] => []
  | e :: es => subnodes e ++ subnodesL es
end

/-- sqlglot `expression.find(exp.Identifier)`: first identifier in preorder. -/
def findIdent (e : Expression) : Option Expression :=
  (subnodes e).find? (fun x => match x with | .ident _ _ => true | _ => false)

/-- sqlglot `expression.find(exp.Table)`: first table in preorder. -/
def findTable (e : Expression) : Option Expression :=
  (subnodes e).find? (fun x => match x with | .table _ _ => true | _ => false)

mutual
/-- No `exp.Null` occurs anywhere in the subtree. -/
def noNull : Expression → Bool
  | .lit _ _ => true
  | .ident _ _ => true
  | .nullE => false
  | .varE _ => true
  | .column c => noNull c
  | .table t db => noNull t && noNullO db
  | .use k t => noNullO k && noNullO t
  | .commandStr _ _ => true
  | .commandNode _ c _ => noNull c
  | .create _ t => noNull t
  | .showE _ _ sc _ li => noNullO sc && noNullO li
  | .alterTable t acts => noNull t && noNullL acts
  | .setE _ => true
  | .bracket t es => noNull t && noNullL es
  | .jsonExtract a b => noNull a && noNull b
  | .regexpReplace a b r p o pa m =>
    noNull a && noNull b && noNullO r && noNullO p && noNullO o && noNullO pa
      && noNullO m
  | .regexpExtract a b p o pa g =>
    noNull a && noNull b && noNullO p && noNullO o && noNullO pa && noNullO g
  | .anonymous _ es => noNullL es
  | .toNumber t f p s => noNull t && noNullO f && noNullO p && noNullO s
  | .cast a b => noNull a && noNull b
  | .dataType _ es _ _ => noNullL es
  | .struct es => noNullL es
  | .propertyEq k v => noNull k && noNullO v
  | .arrayE es => noNullL es
  | .slice t => noNull t
  | .parsedSql _ _ => true

/-- `noNull` on an optional child. -/
def noNullO : Option Expression → Bool
  | none => true
  | some c => noNull c

/-- `noNull` on a child list. -/
def noNullL : List Expression → Bool
  | [] => true
  | c :: cs => noNull c && noNullL cs
end

/-- Does some direct child of this node equal `exp.Null`?  Such a node is
exactly one that `object_construct`'s loop pops from its own parent. -/
def hasNullChild (e : Expression) : Bool := (directChildren e).any isNullE

mutual
/-- Effect of `object_construct`'s loop
`for enull in expression.find_all(exp.Null): if enull.parent: enull.parent.pop()`:
every node that has a direct `Null` child is removed from its own parent
(`Expression.pop` clears the parent's arg slot, or deletes the element from a
list-valued arg).  The root has no parent inside the rule, so it is never
removed, and a `Null` that is itself a direct child of the root stays (its
parent is the root).  Removal from a required single-child slot would leave a
node sqlglot renders as missing; such a tree is outside this embedding, so
the child is kept there (no claim exercises that corner). -/
def popNullParents : Expression → Expression
  | .lit s b => .lit s b
  | .ident s q => .ident s q
  | .nullE => .nullE
  | .varE s => .varE s
  | .column c => .column (if hasNullChild c then c else popNullParents c)
  | .table t db =>
    .table (if hasNullChild t then t else popNullParents t) (popO db)
  | .use k t => .use (popO k) (popO t)
  | .commandStr a b => .commandStr a b
  | .commandNode a c n =>
    .commandNode a (if hasNullChild c then c else popNullParents c) n
  | .create k t => .create k (if hasNullChild t then t else popNullParents t)
  | .showE a sk sc te li => .showE a sk (popO sc) te (popO li)
  | .alterTable t acts =>
    .alterTable (if hasNullChild t then t else popNullParents t) (popL acts)
  | .setE b => .setE b
  | .bracket t es =>
    .bracket (if hasNullChild t then t else popNullParents t) (popL es)
  | .jsonExtract a b =>
    .jsonExtract (if hasNullChild a then a else popNullParents a)
      (if hasNullChild b then b else popNullParents b)
  | .regexpReplace a b r p o pa m =>
    .regexpReplace (if hasNullChild a then a else popNullParents a)
      (if hasNullChild b then b else popNullParents b) (popO r) (popO p) (popO o)
      (popO pa) (popO m)
  | .regexpExtract a b p o pa g =>
    .regexpExtract (if hasNullChild a then a else popNullParents a)
      (if hasNullChild b then b else popNullParents b) (popO p) (popO o) (popO pa)
      (popO g)
  | .anonymous n es => .anonymous n (popL es)
  | .toNumber t f p s =>
    .toNumber (if hasNullChild t then t else popNullParents t) (popO f) (popO p)
      (popO s)
  | .cast a b =>
    .cast (if hasNullChild a then a else popNullParents a)
      (if hasNullChild b then b else popNullParents b)
  | .dataType n es a b => .dataType n (popL es) a b
  | .struct es => .struct (popL es)
  | .propertyEq k v =>
    .propertyEq (if hasNullChild k then k else popNullParents k) (popO v)
  | .arrayE es => .arrayE (popL es)
  | .slice t => .slice (if hasNullChild t then t else popNullParents t)
  | .parsedSql s r => .parsedSql s r

/-- An optional child slot: `pop` clears it to `None`. -/
def popO : Option Expression → Option Expression
  | none => none
  | some c => if hasNullChild c then none else some (popNullParents c)

/-- A list-valued arg: `pop` deletes the popped element. -/
def popL : List Expression → List Expression
  | [] => []
  | c :: cs => if hasNullChild c then popL cs else popNullParents c :: popL cs
end

/-! ### The transform rules under verification, translated from
`fakesnow/transforms.py`. -/

/-- `MISSING_DATABASE` sentinel (transforms.py line 12). -/
def MISSING_DATABASE : String := "missing_database"

/-- `SUCCESS_NOP = sqlglot.parse_one("SELECT 'Statement executed successfully.'")`
(transforms.py line 13). -/
def SUCCESS_NOP : Expression :=
  .parsedSql "SELECT 'Statement executed successfully.'" ""

/-- Modelled from the spec: `USERS_TABLE_FQ_NAME` is imported from
`fakesnow.global_database`, which is not part of the sources; the spec only
says CREATE USER/SHOW USERS target "a well-known global users table", so the
fully-qualified name itself is a placeholder constant (no claim depends on
its value). -/
def USERS_TABLE_FQ_NAME : String := "_fs_global.main._fs_users_ext"

/-- `create_database` (transforms.py lines 59-85): transform CREATE DATABASE
to ATTACH DATABASE, recording the database name in the `create_db_name` arg;
asserts an identifier is present. -/
def create_database (expression : Expression) (db_path : Option String) :
    Except PyError Expression :=
  match expression with
  | .create kind _ =>
    if pyUpper (pyStrOpt kind) = "DATABASE" then
      match findIdent expression with
      | some id =>
        let db_name := nameOf id
        let db_file :=
          match db_path with
          | some p => p ++ "/" ++ db_name ++ ".db"
          | none => ":memory:"
        .ok (.commandNode "ATTACH"
          (.lit ("DATABASE '" ++ db_file ++ "' AS " ++ db_name) true)
          (some db_name))
      | none => .error (.assertionError "No identifier")
    else .ok expression
  | _ => .ok expression

/-- `object_construct` (transforms.py lines 535-551): on a Struct, every
parent of a literal null is popped from its own parent (see
`popNullParents`), then the struct is wrapped in `TO_JSON`. -/
def object_construct (expression : Expression) : Expression :=
  match expression with
  | .struct es => .anonymous "TO_JSON" [.struct (popL es)]
  | _ => expression

/-- `regex_replace` (transforms.py lines 554-577): for a REGEXP_REPLACE with
a literal pattern, raise if more than 3 args are present, otherwise unescape
doubled backslashes in the pattern, default the replacement to `''` and force
the global modifier. -/
def regex_replace (expression : Expression) : Except PyError Expression :=
  match expression with
  | .regexpReplace this pat replacement position occurrence parameters modifiers =>
    match pat with
    | .lit pthis _ =>
      if 2 + ([replacement, position, occurrence, parameters, modifiers].countP
          Option.isSome) > 3 then
        .error (.notImplemented
          "REGEXP_REPLACE with additional parameters (eg: <position>, <occurrence>, <parameters>) not supported")
      else
        let newRepl :=
          match replacement with
          | some r => r
          | none => Expression.lit "" true
        .ok (.regexpReplace this (.lit (pyUnescape pthis) true) (some newRepl)
          position occurrence parameters (some (.lit "g" true)))
    | _ => .ok expression
  | _ => .ok expression

/-- `regex_substr` (transforms.py lines 580-640): rewrite REGEXP_SUBSTR to an
index into `regexp_extract_all` over the position-sliced subject.  The
pattern's `this` is mutated via `str.replace`, which raises AttributeError
when `this` is not a string; `int(occurrence.this)` raises ValueError on a
non-numeric text.  `exp.Literal(is_string=True)` (no `this`) is modelled as
text `""`: the subsequent `isinstance(regex_parameters.this, str) and "e" in
regex_parameters.this` check takes the same branch for `None` and `""`. -/
def regex_substr (expression : Expression) : Except PyError Expression :=
  match expression with
  | .regexpExtract subject pattern position occurrence parameters group =>
    let patRes : Option Expression :=
      match pattern with
      | .lit t b => some (.lit (pyUnescape t) b)
      | .varE s => some (.varE (pyUnescape s))
      | .ident s q => some (.ident (pyUnescape s) q)
      | _ => none
    match patRes with
    | none => .error (.attributeError "object has no attribute 'replace'")
    | some pattern =>
      let position :=
        match position with
        | some p => p
        | none => Expression.lit "1" false
      let occRes : Except PyError Int :=
        match occurrence with
        | some (.lit othis _) =>
          match pyInt othis with
          | some n => .ok n
          | none => .error (.valueError "invalid literal for int() with base 10")
        | some _ => .error (.valueError "int() argument must be a string or a number")
        | none => .ok 1
      match occRes with
      | .error err => .error err
      | .ok occN =>
        let occurrence := Expression.lit (toString (occN - 1)) false
        let regex_parameters_value :=
          match parameters with
          | some p => stripE (pyStrThis p)
          | none => ""
        let regex_parameters := Expression.lit regex_parameters_value true
        let group_num :=
          match group with
          | some g => g
          | none =>
            if pyContains regex_parameters_value "e" then Expression.lit "1" false
            else Expression.lit "0" false
        .ok (.bracket
          (.anonymous "regexp_extract_all"
            [.bracket subject [.slice position], pattern, group_num, regex_parameters])
          [occurrence])
  | _ => .ok expression

/-- `set_schema` (transforms.py lines 644-689): transform USE
SCHEMA/DATABASE to a `SET schema = '<db>.<schema>'` command; asserts the USE
statement carries a target. -/
def set_schema (expression : Expression) (current_database : Option String) :
    Except PyError Expression :=
  match expression with
  | .use kind this =>
    match kind with
    | some (.varE kname) =>
      if kname ≠ "" ∧ (pyUpper kname = "SCHEMA" ∨ pyUpper kname = "DATABASE") then
        match this with
        | none => .error (.assertionError "No identifier for USE expression")
        | some t =>
          let name :=
            if pyUpper kname = "DATABASE" then nameOf t ++ ".main"
            else
              let db_name :=
                match t with
                | .table _ (some db) => nameOf db
                | _ =>
                  if truthy current_database then current_database.getD ""
                  else MISSING_DATABASE
              db_name ++ "." ++ nameOf t
          .ok (.commandNode "SET" (.lit ("schema = '" ++ name ++ "'") true) none)
      else .ok expression
    | _ => .ok expression
  | _ => .ok expression

/-- `show_objects_tables` (transforms.py lines 692-746): transform SHOW
OBJECTS/TABLES into a `parse_one`-parsed query against
`information_schema.tables`, scoped by database/schema and honouring TERSE
and LIMIT. -/
def show_objects_tables (expression : Expression) (current_database : Option String) :
    Except PyError Expression :=
  match expression with
  | .showE sthis scope_kind _ terse limit =>
    if ¬(pyUpper sthis = "OBJECTS" ∨ pyUpper sthis = "TABLES") then .ok expression
    else
      let show_ := pyUpper sthis
      let table := findTable expression
      let catSchema : Option String × Option String :=
        if scope_kind = some "DATABASE" then
          (pyOr (table.map nameOf) current_database, none)
        else if scope_kind = some "SCHEMA" ∧ table.isSome then
          match table with
          | some t => (pyOr (some (tableDbText t)) current_database, some (nameOf t))
          | none => (none, none)
        else (none, none)
      let tables_only :=
        if show_ = "TABLES" then "table_type = 'BASE TABLE' and " else ""
      let exclude_fakesnow_tables :=
        "not (table_schema == 'information_schema' and table_name like '_fs_%%')"
      let table_catalog :=
        if truthy catSchema.1 then
          " and table_catalog = '" ++ pyStrOpt catSchema.1 ++ "'"
        else ""
      let schema :=
        if truthy catSchema.2 then
          " and table_schema = '" ++ pyStrOpt catSchema.2 ++ "'"
        else ""
      let limit_ :=
        match limit with
        | some l => sqlApprox l
        | none => ""
      let columns :=
        ["to_timestamp(0)::timestamptz as 'created_on'",
         "table_name as 'name'",
         "case when table_type='BASE TABLE' then 'TABLE' else table_type end as 'kind'",
         "table_catalog as 'database_name'",
         "table_schema as 'schema_name'"]
        ++ (if terse then [] else ["null as \"comment\""])
      let columns_str := String.intercalate ", " columns
      .ok (.parsedSql
        ("SELECT " ++ columns_str ++ " from information_schema.tables where "
          ++ tables_only ++ exclude_fakesnow_tables ++ table_catalog ++ schema
          ++ limit_)
        "duckdb")
  | _ => .ok expression

/-- `tag` (transforms.py lines 779-808): ALTER TABLE ... SET TAG and
`SET TAG` commands become the success no-op; everything else is unchanged. -/
def tag (expression : Expression) : Except PyError Expression :=
  match expression with
  | .alterTable _ actions =>
    if ¬actions.isEmpty then
      if actions.any (fun a =>
          match a with
          | .setE t => t
          | _ => false) then
        .ok SUCCESS_NOP
      else .ok expression
    else .ok expression
  | .commandStr _ cexp =>
    if cexp ≠ "" ∧ pyContains (pyUpper cexp) "SET TAG" then .ok SUCCESS_NOP
    else .ok expression
  | _ => .ok expression

/-- `_get_to_number_args` (transforms.py lines 839-879): disentangle the
`format`/`precision`/`scale` args of a ToNumber node. -/
def getToNumberArgs (arg_format arg_precision arg_scale : Option Expression) :
    Option Expression × Option Expression × Option Expression :=
  match arg_format with
  | some f =>
    if isStringLit f then
      match arg_precision with
      | some p => (some f, some p, arg_scale)
      | none => (some f, none, none)
    else
      (none, some f, arg_precision)
  | none =>
    match arg_precision with
    | some p => (none, some p, arg_scale)
    | none => (none, none, none)

/-- `to_decimal` (transforms.py lines 882-922): rewrite
TO_DECIMAL/TO_NUMBER/TO_NUMERIC to a CAST to DECIMAL, defaulting precision
and scale to 38 and 0; raise when a format (string) argument is present. -/
def to_decimal (expression : Expression) : Except PyError Expression :=
  match expression with
  | .toNumber this fmt prec scl =>
    let fps := getToNumberArgs fmt prec scl
    if fps.1.isSome then
      .error (.notImplemented (sqlApprox this ++ " with format argument"))
    else
      let precision :=
        match fps.2.1 with
        | some p => p
        | none => Expression.lit "38" false
      let scale :=
        match fps.2.2 with
        | some s => s
        | none => Expression.lit "0" false
      .ok (.cast this (.dataType "DECIMAL" [precision, scale] false false))
  | .anonymous name exprs =>
    if pyUpper name = "TO_DECIMAL" ∨ pyUpper name = "TO_NUMERIC" then
      if exprs.length > 1 ∧ isStringLit (exprs.getD 1 .nullE) then
        .error (.notImplemented (name ++ " with format argument"))
      else
        let precision :=
          if exprs.length > 1 then exprs.getD 1 .nullE else Expression.lit "38" false
        let scale :=
          if exprs.length > 2 then exprs.getD 2 .nullE else Expression.lit "0" false
        match exprs with
        | [] => .error (.indexError "list index out of range")
        | v :: _ => .ok (.cast v (.dataType "DECIMAL" [precision, scale] false false))
    else .ok expression
  | _ => .ok expression

/-- `indices_to_json_extract` (transforms.py lines 355-382): a bracket with
exactly one literal index with non-empty text becomes a JSON path
extraction (`$.<key>` for a string index, `$[<n>]` otherwise). -/
def indices_to_json_extract (expression : Expression) : Expression :=
  match expression with
  | .bracket this [index] =>
    (match index with
     | .lit ithis isStr =>
       if ithis ≠ "" then
         if isStr then .jsonExtract this (.lit ("$." ++ ithis) true)
         else .jsonExtract this (.lit ("$[" ++ ithis ++ "]") true)
       else expression
     | _ => expression)
  | _ => expression

/-- `upper_case_unquoted_identifiers` (transforms.py lines 1028-1050). -/
def upper_case_unquoted_identifiers (expression : Expression) : Expression :=
  match expression with
  | .ident s quoted => if ¬quoted then .ident (pyUpper s) quoted else expression
  | _ => expression

/-- `create_user` (transforms.py lines 1084-1099): minimal CREATE USER
becomes an insert into the global users table; extra clauses raise. -/
def create_user (expression : Expression) : Except PyError Expression :=
  match expression with
  | .commandStr cthis cexp =>
    if cthis = "CREATE" then
      let sub_exp := pyStrip cexp
      if pyStartsWith (pyUpper sub_exp) "USER" then
        match pySplitSpace sub_exp with
        | [] => .error (.valueError "not enough values to unpack (expected at least 2, got 0)")
        | [_] => .error (.valueError "not enough values to unpack (expected at least 2, got 1)")
        | _ :: name :: ignored =>
          if ignored ≠ [] then
            .error (.notImplemented
              ("`CREATE USER` with " ++ pyReprList ignored ++ " not yet supported"))
          else
            .ok (.parsedSql
              ("INSERT INTO " ++ USERS_TABLE_FQ_NAME ++ " (name) VALUES ('"
                ++ name ++ "')")
              "duckdb")
      else .ok expression
    else .ok expression
  | _ => .ok expression

/-- The `kind` keyword argument of `show_keys`
(`Literal["PRIMARY", "UNIQUE", "FOREIGN"]`). -/
inductive KeyKind where
  | primary
  | unique
  | foreign
  deriving DecidableEq, Repr

/-- Snowflake keyword for a key kind. -/
def KeyKind.str : KeyKind → String
  | .primary => "PRIMARY"
  | .unique => "UNIQUE"
  | .foreign => "FOREIGN"

/-- The constraint-catalog query `show_keys` synthesizes for FOREIGN keys
(whitespace normalized; the string is handed to the external parser). -/
def showKeysForeignSql (current_database : Option String) : String :=
  "SELECT to_timestamp(0)::timestamptz as created_on, "
    ++ "'' as pk_database_name, '' as pk_schema_name, '' as pk_table_name, "
    ++ "'' as pk_column_name, unnest(constraint_column_names) as pk_column_name, "
    ++ "database_name as fk_database_name, schema_name as fk_schema_name, "
    ++ "table_name as fk_table_name, unnest(constraint_column_names) as fk_column_name, "
    ++ "1 as key_sequence, 'NO ACTION' as update_rule, 'NO ACTION' as delete_rule, "
    ++ "LOWER(CONCAT(database_name, '_', schema_name, '_', table_name, '_pkey')) AS fk_name, "
    ++ "LOWER(CONCAT(database_name, '_', schema_name, '_', table_name, '_pkey')) AS pk_name, "
    ++ "'NOT DEFERRABLE' as deferrability, 'false' as rely, null as \"comment\" "
    ++ "FROM duckdb_constraints "
    ++ "WHERE constraint_type = 'PRIMARY KEY' AND database_name = '"
    ++ pyStrOpt current_database
    ++ "' AND table_name NOT LIKE '_fs_%' "

/-- The constraint-catalog query `show_keys` synthesizes for PRIMARY/UNIQUE
keys (whitespace normalized; the string is handed to the external parser). -/
def showKeysPrimaryUniqueSql (current_database : Option String) (kind : KeyKind) :
    String :=
  "SELECT to_timestamp(0)::timestamptz as created_on, "
    ++ "database_name as database_name, schema_name as schema_name, "
    ++ "table_name as table_name, unnest(constraint_column_names) as column_name, "
    ++ "1 as key_sequence, "
    ++ "LOWER(CONCAT(database_name, '_', schema_name, '_', table_name, '_pkey')) AS constraint_name, "
    ++ "'false' as rely, null as \"comment\" "
    ++ "FROM duckdb_constraints "
    ++ "WHERE constraint_type = '" ++ kind.str ++ " KEY' AND database_name = '"
    ++ pyStrOpt current_database
    ++ "' AND table_name NOT LIKE '_fs_%' "

/-- `show_keys` (transforms.py lines 1102-1182): transform SHOW
PRIMARY/UNIQUE/IMPORTED KEYS into a query over `duckdb_constraints`,
optionally narrowed by an `IN SCHEMA` scope; any other scope kind raises. -/
def show_keys (expression : Expression) (current_database : Option String)
    (kind : KeyKind) : Except PyError Expression :=
  let snowflake_kind := if kind = .foreign then "IMPORTED" else kind.str
  match expression with
  | .showE sthis scope_kind scope _ _ =>
    if pyUpper sthis = snowflake_kind ++ " KEYS" then
      let statement :=
        if kind = .foreign then showKeysForeignSql current_database
        else showKeysPrimaryUniqueSql current_database kind
      match scope_kind with
      | some sk =>
        if sk ≠ "" then
          let table := scope
          if sk = "SCHEMA" then
            let db := match table with | some t => tableDbText t | none => ""
            let schemaName := match table with | some t => nameOf t | none => ""
            let statement := statement
              ++ (if db ≠ "" then "AND database_name = '" ++ db ++ "' " else "")
            let statement := statement
              ++ (if schemaName ≠ "" then "AND schema_name = '" ++ schemaName ++ "' " else "")
            .ok (.parsedSql statement "")
          else
            .error (.notImplemented
              ("SHOW PRIMARY KEYS with " ++ sk ++ " not yet supported"))
        else .ok (.parsedSql statement "")
      | none => .ok (.parsedSql statement "")
    else .ok expression
  | _ => .ok expression

/-- Match predicate of `show_objects_tables`: the guard of its rewriting
branch. -/
def isShowObjectsTablesMatch : Expression → Bool
  | .showE s _ _ _ _ => pyUpper s = "OBJECTS" || pyUpper s = "TABLES"
  | _ => false

/-- Match predicate of `tag`: true exactly when `tag` rewrites the node to
the success no-op. -/
def isTagMatch : Expression → Bool
  | .alterTable _ actions =>
    !actions.isEmpty && actions.any (fun a =>
      match a with
      | .setE t => t
      | _ => false)
  | .commandStr _ cexp => cexp != "" && pyContains (pyUpper cexp) "SET TAG"
  | _ => false

/-- Is this node an `exp.Literal`? -/
def isLiteral : Expression → Bool
  | .lit _ _ => true
  | _ => false

/-- Is this node an `exp.JSONExtract` (a JSON-path extraction)? -/
def isJsonExtractNode : Expression → Bool
  | .jsonExtract _ _ => true
  | _ => false

/-- Is this struct member a `key := NULL` member (value is a literal null)? -/
def isNullValueMember : Expression → Bool
  | .propertyEq _ (some .nullE) => true
  | _ => false

/-- Did the computation succeed (no exception)? -/
def exceptOk : Except PyError Expression → Bool
  | .ok _ => true
  | .error _ => false

/-- Match predicate of `create_database`: a Create node whose kind is
DATABASE. -/
def isCreateDatabaseMatch : Expression → Bool
  | .create k _ => pyUpper (pyStrOpt k) = "DATABASE"
  | _ => false

/-- Match predicate of `set_schema`: a Use node whose kind is a Var named
SCHEMA or DATABASE. -/
def isSetSchemaMatch : Expression → Bool
  | .use (some (.varE kname)) _ =>
    kname ≠ "" && (pyUpper kname = "SCHEMA" || pyUpper kname = "DATABASE")
  | _ => false

/-- Match predicate of `regex_replace`: a RegexpReplace whose pattern is a
literal. -/
def isRegexReplaceMatch : Expression → Bool
  | .regexpReplace _ pat _ _ _ _ _ => isLiteral pat
  | _ => false

/-- Match predicate of `regex_substr`: any RegexpExtract node. -/
def isRegexSubstrMatch : Expression → Bool
  | .regexpExtract _ _ _ _ _ _ => true
  | _ => false

/-- Match predicate of `to_decimal`: a ToNumber node, or an anonymous call
named TO_DECIMAL/TO_NUMERIC. -/
def isToDecimalMatch : Expression → Bool
  | .toNumber _ _ _ _ => true
  | .anonymous nm _ => pyUpper nm = "TO_DECIMAL" || pyUpper nm = "TO_NUMERIC"
  | _ => false

/-- Match predicate of `create_user`: a CREATE command whose body starts
with USER. -/
def isCreateUserMatch : Expression → Bool
  | .commandStr cthis cexp =>
    cthis = "CREATE" && pyStartsWith (pyUpper (pyStrip cexp)) "USER"
  | _ => false

/-- Match predicate of `show_keys` for a given key kind. -/
def isShowKeysMatch (kind : KeyKind) : Expression → Bool
  | .showE sthis _ _ _ _ =>
    pyUpper sthis = (if kind = .foreign then "IMPORTED" else kind.str) ++ " KEYS"
  | _ => false

/-! ### Theorems settling the claims. -/

/-- Inside the uppercasing branch, `Char.toUpper` lands on the target code
point. -/
theorem char_toUpper_toNat (c : Char) (h : c.toNat ≥ 97 ∧ c.toNat ≤ 122) :
    (Char.toUpper c).toNat = c.toNat - 32 := by
  have hv : (c.toNat - 32).isValidChar := Or.inl (by omega)
  show (if c.toNat ≥ 97 ∧ c.toNat ≤ 122 then Char.ofNat (c.toNat - 32) else c).toNat
      = c.toNat - 32
  rw [if_pos h, Char.ofNat, dif_pos hv]
  rfl

/-- `Char.toUpper` is idempotent. -/
theorem char_toUpper_idem (c : Char) : c.toUpper.toUpper = c.toUpper := by
  by_cases h : c.toNat ≥ 97 ∧ c.toNat ≤ 122
  · have h1 : (c.toUpper).toNat = c.toNat - 32 := char_toUpper_toNat c h
    have h2 : ¬((c.toUpper).toNat ≥ 97 ∧ (c.toUpper).toNat ≤ 122) := by
      rw [h1]; omega
    calc c.toUpper.toUpper
        = if (c.toUpper).toNat ≥ 97 ∧ (c.toUpper).toNat ≤ 122 then
            Char.ofNat ((c.toUpper).toNat - 32)
          else c.toUpper := rfl
      _ = c.toUpper := if_neg h2
  · have h0 : c.toUpper = c := by
      show (if c.toNat ≥ 97 ∧ c.toNat ≤ 122 then Char.ofNat (c.toNat - 32) else c) = c
      exact if_neg h
    rw [h0, h0]

/-- `pyUpper` (Python `str.upper`) is idempotent. -/
theorem pyUpper_idem (s : String) : pyUpper (pyUpper s) = pyUpper s := by
  show (⟨(String.mk (s.data.map Char.toUpper)).data.map Char.toUpper⟩ : String)
      = ⟨s.data.map Char.toUpper⟩
  simp only [String.data]
  rw [List.map_map]
  congr 1
  exact List.map_congr_left (fun a _ => char_toUpper_idem a)

/-- C3: for every USE SCHEMA / USE DATABASE statement, `set_schema` returns
a SET command: `USE DATABASE d` yields `SET schema = 'd.main'`;
`USE SCHEMA d.s` yields `SET schema = 'd.s'`; `USE SCHEMA s` with a current
database `db` yields `SET schema = 'db.s'`; and `USE SCHEMA s` with no
current database yields `SET schema = 'missing_database.s'` rather than
failing. -/
theorem set_schema_use_mapping :
    (∀ (d : String) (q : Bool) (cur : Option String),
      set_schema (.use (some (.varE "DATABASE")) (some (.table (.ident d q) none))) cur
        = .ok (.commandNode "SET" (.lit ("schema = '" ++ (d ++ ".main") ++ "'") true) none)) ∧
    (∀ (d s : String) (q q' : Bool) (cur : Option String),
      set_schema
          (.use (some (.varE "SCHEMA")) (some (.table (.ident s q) (some (.ident d q'))))) cur
        = .ok (.commandNode "SET" (.lit ("schema = '" ++ (d ++ "." ++ s) ++ "'") true) none)) ∧
    (∀ (s db : String) (q : Bool), db ≠ "" →
      set_schema (.use (some (.varE "SCHEMA")) (some (.table (.ident s q) none))) (some db)
        = .ok (.commandNode "SET" (.lit ("schema = '" ++ (db ++ "." ++ s) ++ "'") true) none)) ∧
    (∀ (s : String) (q : Bool),
      set_schema (.use (some (.varE "SCHEMA")) (some (.table (.ident s q) none))) none
        = .ok (.commandNode "SET"
            (.lit ("schema = '" ++ (MISSING_DATABASE ++ "." ++ s) ++ "'") true) none)) := by
  refine ⟨?_, ?_, ?_, ?_⟩
  · intro d q cur
    rfl
  · intro d s q q' cur
    rfl
  · intro s db q h
    simp +decide [set_schema, truthy, nameOf, textArg, h]
  · intro s q
    rfl

/-- C3 witness: the four mapping cases at concrete inputs. -/
theorem set_schema_use_mapping_witness :
    set_schema (.use (some (.varE "SCHEMA")) (some (.table (.ident "bar" false) none)))
        (some "foo")
      = .ok (.commandNode "SET" (.lit "schema = 'foo.bar'" true) none) := by
  have h := set_schema_use_mapping.2.2.1 "bar" "foo" false (by decide)
  simpa using h

/-- C7: `CREATE DATABASE name` becomes an ATTACH DATABASE command targeting
`':memory:'` when no database file path is configured and `'<path>/<name>.db'`
when one is, aliased as the name, with the name recorded in the
`create_db_name` arg; a CREATE DATABASE without an identifier fails the
assertion instead of returning a tree. -/
theorem create_database_mapping :
    (∀ (k : Option String) (t : Expression) (nm : String) (q : Bool),
      pyUpper (pyStrOpt k) = "DATABASE" →
      findIdent (.create k t) = some (.ident nm q) →
      create_database (.create k t) none
        = .ok (.commandNode "ATTACH"
            (.lit ("DATABASE ':memory:' AS " ++ nm) true) (some nm))) ∧
    (∀ (k : Option String) (t : Expression) (nm p : String) (q : Bool),
      pyUpper (pyStrOpt k) = "DATABASE" →
      findIdent (.create k t) = some (.ident nm q) →
      create_database (.create k t) (some p)
        = .ok (.commandNode "ATTACH"
            (.lit ("DATABASE '" ++ (p ++ "/" ++ nm ++ ".db") ++ "' AS " ++ nm) true)
            (some nm))) ∧
    (∀ (k : Option String) (t : Expression) (db_path : Option String),
      pyUpper (pyStrOpt k) = "DATABASE" →
      findIdent (.create k t) = none →
      ∃ msg, create_database (.create k t) db_path = .error (.assertionError msg)) := by
  refine ⟨?_, ?_, ?_⟩
  · intro k t nm q h1 h2
    simp [create_database, h1, h2, nameOf]
  · intro k t nm p q h1 h2
    simp [create_database, h1, h2, nameOf]
  · intro k t db_path h1 h2
    exact ⟨"No identifier", by simp [create_database, h1, h2]⟩

/-- C7 witness: concrete CREATE DATABASE statements, with and without a
configured path, and one without an identifier. -/
theorem create_database_mapping_witness :
    create_database (.create (some "database") (.table (.ident "foo" false) none)) none
      = .ok (.commandNode "ATTACH" (.lit "DATABASE ':memory:' AS foo" true) (some "foo"))
    ∧ create_database (.create (some "DATABASE") (.table (.ident "foo" false) none))
        (some "/databases")
      = .ok (.commandNode "ATTACH"
          (.lit "DATABASE '/databases/foo.db' AS foo" true) (some "foo"))
    ∧ ∃ msg,
        create_database (.create (some "DATABASE") .nullE) none
          = .error (.assertionError msg) := by
  refine ⟨?_, ?_, ?_⟩
  · have h := create_database_mapping.1 (some "database") (.table (.ident "foo" false) none)
      "foo" false (by decide) rfl
    simpa using h
  · have h := create_database_mapping.2.1 (some "DATABASE") (.table (.ident "foo" false) none)
      "foo" "/databases" false (by decide) rfl
    simpa using h
  · exact create_database_mapping.2.2 (some "DATABASE") .nullE none (by decide) rfl

/-- C10: `regex_replace` leaves a REGEXP_REPLACE whose pattern is not a
literal completely unchanged and never raises, even when it carries more
than three positional args. -/
theorem regex_replace_nonliteral_pattern_unchanged :
    ∀ (this pat : Expression) (r p o pa m : Option Expression),
      isLiteral pat = false →
      regex_replace (.regexpReplace this pat r p o pa m)
        = .ok (.regexpReplace this pat r p o pa m) := by
  intro this pat r p o pa m h
  cases pat <;> first
    | rfl
    | simp [isLiteral] at h

/-- C10 witness: a REGEXP_REPLACE whose pattern is a column and which
carries position, occurrence and parameters args (well past three args) is
returned unchanged. -/
theorem regex_replace_nonliteral_pattern_unchanged_witness :
    regex_replace (.regexpReplace (.column (.ident "s" false)) (.column (.ident "pat" false))
        (some (.lit "r" true)) (some (.lit "2" false)) (some (.lit "3" false))
        (some (.lit "i" true)) none)
      = .ok (.regexpReplace (.column (.ident "s" false)) (.column (.ident "pat" false))
          (some (.lit "r" true)) (some (.lit "2" false)) (some (.lit "3" false))
          (some (.lit "i" true)) none) :=
  regex_replace_nonliteral_pattern_unchanged _ _ _ _ _ _ _ (by decide)

/-- C5 counterexample: `x['']` has exactly one literal (string) index, yet
`indices_to_json_extract` returns the bracket unchanged — not a JSON-path
extraction node — because the code additionally requires the literal's text
to be truthy (non-empty). -/
theorem indices_to_json_extract_empty_index_counterexample :
    indices_to_json_extract (.bracket (.column (.ident "x" false)) [.lit "" true])
      = .bracket (.column (.ident "x" false)) [.lit "" true]
    ∧ isJsonExtractNode
        (indices_to_json_extract (.bracket (.column (.ident "x" false)) [.lit "" true]))
      = false := by
  refine ⟨rfl, rfl⟩

/-- C5 as amended: a bracket with exactly one literal index whose text is
non-empty becomes a JSON-path extraction (`$.<key>` for a string index,
`$[<n>]` for a numeric one); brackets with an empty-text literal index, a
non-literal index, or an index list not of length one are unchanged. -/
theorem indices_to_json_extract_mapping :
    (∀ (this : Expression) (s : String), s ≠ "" →
      indices_to_json_extract (.bracket this [.lit s true])
        = .jsonExtract this (.lit ("$." ++ s) true)) ∧
    (∀ (this : Expression) (s : String), s ≠ "" →
      indices_to_json_extract (.bracket this [.lit s false])
        = .jsonExtract this (.lit ("$[" ++ s ++ "]") true)) ∧
    (∀ (this index : Expression), isLiteral index = false →
      indices_to_json_extract (.bracket this [index]) = .bracket this [index]) ∧
    (∀ (this : Expression) (es : List Expression), es.length ≠ 1 →
      indices_to_json_extract (.bracket this es) = .bracket this es) := by
  refine ⟨?_, ?_, ?_, ?_⟩
  · intro this s h
    simp [indices_to_json_extract, h]
  · intro this s h
    simp [indices_to_json_extract, h]
  · intro this index h
    cases index <;> first
      | rfl
      | simp [isLiteral] at h
  · intro this es h
    match es with
    | [] => rfl
    | [e] => simp at h
    | e :: e' :: rest => rfl

/-- C5 witness: concrete string, numeric, non-literal and multi-index
brackets. -/
theorem indices_to_json_extract_mapping_witness :
    indices_to_json_extract (.bracket (.column (.ident "x" false)) [.lit "name" true])
      = .jsonExtract (.column (.ident "x" false)) (.lit "$.name" true)
    ∧ indices_to_json_extract (.bracket (.column (.ident "x" false)) [.lit "0" false])
      = .jsonExtract (.column (.ident "x" false)) (.lit "$[0]" true)
    ∧ indices_to_json_extract
        (.bracket (.column (.ident "x" false)) [.column (.ident "i" false)])
      = .bracket (.column (.ident "x" false)) [.column (.ident "i" false)]
    ∧ indices_to_json_extract
        (.bracket (.column (.ident "x" false)) [.lit "1" false, .lit "2" false])
      = .bracket (.column (.ident "x" false)) [.lit "1" false, .lit "2" false] := by
  refine ⟨?_, ?_, ?_, ?_⟩
  · have h := indices_to_json_extract_mapping.1 (.column (.ident "x" false)) "name" (by decide)
    simpa using h
  · have h := indices_to_json_extract_mapping.2.1 (.column (.ident "x" false)) "0" (by decide)
    simpa using h
  · exact indices_to_json_extract_mapping.2.2.1 _ _ (by decide)
  · exact indices_to_json_extract_mapping.2.2.2 _ _ (by decide)

/-- C4 counterexample: `TO_DECIMAL(a, 10, '2')` has a string-typed third
argument, yet `to_decimal` does not raise: only the second argument is
checked for stringness, and the third is passed through as the scale. -/
theorem to_decimal_third_arg_string_counterexample :
    to_decimal
        (.anonymous "TO_DECIMAL" [.column (.ident "a" false), .lit "10" false, .lit "2" true])
      = .ok (.cast (.column (.ident "a" false))
          (.dataType "DECIMAL" [.lit "10" false, .lit "2" true] false false))
    ∧ exceptOk (to_decimal
        (.anonymous "TO_DECIMAL" [.column (.ident "a" false), .lit "10" false, .lit "2" true]))
      = true :=
  ⟨rfl, rfl⟩

/-- C4 as amended: `to_decimal` rewrites TO_DECIMAL/TO_NUMBER/TO_NUMERIC
with one, two or three value arguments to `CAST(x AS DECIMAL(38,0))`,
`CAST(x AS DECIMAL(p,0))` and `CAST(x AS DECIMAL(p,s))` respectively, and
raises an unsupported-construct error exactly when the second argument (the
format slot) is a string-typed literal; a string-typed third argument does
not raise. -/
theorem to_decimal_mapping :
    (∀ (x : Expression),
      to_decimal (.toNumber x none none none)
        = .ok (.cast x (.dataType "DECIMAL" [.lit "38" false, .lit "0" false] false false))) ∧
    (∀ (x p : Expression), isStringLit p = false →
      to_decimal (.toNumber x (some p) none none)
        = .ok (.cast x (.dataType "DECIMAL" [p, .lit "0" false] false false))) ∧
    (∀ (x p s : Expression), isStringLit p = false →
      to_decimal (.toNumber x (some p) (some s) none)
        = .ok (.cast x (.dataType "DECIMAL" [p, s] false false))) ∧
    (∀ (x f : Expression) (pr sc : Option Expression), isStringLit f = true →
      to_decimal (.toNumber x (some f) pr sc)
        = .error (.notImplemented (sqlApprox x ++ " with format argument"))) ∧
    (∀ (nm : String) (x : Expression),
      pyUpper nm = "TO_DECIMAL" ∨ pyUpper nm = "TO_NUMERIC" →
      to_decimal (.anonymous nm [x])
        = .ok (.cast x (.dataType "DECIMAL" [.lit "38" false, .lit "0" false] false false))) ∧
    (∀ (nm : String) (x p : Expression),
      pyUpper nm = "TO_DECIMAL" ∨ pyUpper nm = "TO_NUMERIC" → isStringLit p = false →
      to_decimal (.anonymous nm [x, p])
        = .ok (.cast x (.dataType "DECIMAL" [p, .lit "0" false] false false))) ∧
    (∀ (nm : String) (x p s : Expression),
      pyUpper nm = "TO_DECIMAL" ∨ pyUpper nm = "TO_NUMERIC" → isStringLit p = false →
      to_decimal (.anonymous nm [x, p, s])
        = .ok (.cast x (.dataType "DECIMAL" [p, s] false false))) ∧
    (∀ (nm : String) (x p : Expression) (rest : List Expression),
      pyUpper nm = "TO_DECIMAL" ∨ pyUpper nm = "TO_NUMERIC" → isStringLit p = true →
      to_decimal (.anonymous nm (x :: p :: rest))
        = .error (.notImplemented (nm ++ " with format argument"))) := by
  refine ⟨?_, ?_, ?_, ?_, ?_, ?_, ?_, ?_⟩
  · intro x
    rfl
  · intro x p h
    simp [to_decimal, getToNumberArgs, h]
  · intro x p s h
    simp [to_decimal, getToNumberArgs, h]
  · intro x f pr sc h
    cases pr <;> simp [to_decimal, getToNumberArgs, h]
  · intro nm x h
    rcases h with h | h <;> simp [to_decimal, h]
  · intro nm x p h hp
    rcases h with h | h <;> simp [to_decimal, h, hp]
  · intro nm x p s h hp
    rcases h with h | h <;> simp [to_decimal, h, hp]
  · intro nm x p rest h hp
    rcases h with h | h <;> simp [to_decimal, h, hp]

/-- C4 witness: the three arities, the raising two-argument form, and the
raising ToNumber form at concrete inputs. -/
theorem to_decimal_mapping_witness :
    to_decimal (.anonymous "TO_DECIMAL" [.column (.ident "a" false)])
      = .ok (.cast (.column (.ident "a" false))
          (.dataType "DECIMAL" [.lit "38" false, .lit "0" false] false false))
    ∧ to_decimal (.anonymous "to_numeric" [.column (.ident "a" false), .lit "10" false])
      = .ok (.cast (.column (.ident "a" false))
          (.dataType "DECIMAL" [.lit "10" false, .lit "0" false] false false))
    ∧ to_decimal (.toNumber (.lit "100" true) (some (.lit "10" false))
          (some (.lit "2" false)) none)
      = .ok (.cast (.lit "100" true)
          (.dataType "DECIMAL" [.lit "10" false, .lit "2" false] false false))
    ∧ to_decimal (.anonymous "TO_DECIMAL" [.lit "100" true, .lit "TM9" true])
      = .error (.notImplemented "TO_DECIMAL with format argument")
    ∧ to_decimal (.toNumber (.lit "100" true) (some (.lit "TM9" true)) none none)
      = .error (.notImplemented "'100' with format argument") := by
  refine ⟨?_, ?_, ?_, ?_, ?_⟩
  · exact to_decimal_mapping.1 _
  · have h := to_decimal_mapping.2.2.2.2.2.1 "to_numeric" (.column (.ident "a" false))
      (.lit "10" false) (by right; decide) (by decide)
    simpa using h
  · have h := to_decimal_mapping.2.2.1 (.lit "100" true) (.lit "10" false) (.lit "2" false)
      (by decide)
    simpa using h
  · have h := to_decimal_mapping.2.2.2.2.2.2.2 "TO_DECIMAL" (.lit "100" true) (.lit "TM9" true)
      [] (by left; decide) (by decide)
    simpa using h
  · have h := to_decimal_mapping.2.2.2.1 (.lit "100" true) (.lit "TM9" true) none none
      (by decide)
    simpa using h

/-- C2: each recognized-but-unsupported construct raises an
unsupported-construct (`NotImplementedError`) whose message names the
feature, and no tree is returned: a REGEXP_REPLACE (with literal pattern)
carrying more than three args, a CREATE USER with clauses beyond the user
name, and a SHOW KEYS with a scope kind other than SCHEMA. -/
theorem unsupported_constructs_raise :
    (∀ (subj : Expression) (pt : String) (pb : Bool) (r p o pa m : Option Expression),
      2 ≤ [r, p, o, pa, m].countP Option.isSome →
      regex_replace (.regexpReplace subj (.lit pt pb) r p o pa m)
        = .error (.notImplemented
            "REGEXP_REPLACE with additional parameters (eg: <position>, <occurrence>, <parameters>) not supported")) ∧
    (∀ (s u name : String) (ignored : List String),
      pyStartsWith (pyUpper (pyStrip s)) "USER" = true →
      pySplitSpace (pyStrip s) = u :: name :: ignored →
      ignored ≠ [] →
      create_user (.commandStr "CREATE" s)
        = .error (.notImplemented
            ("`CREATE USER` with " ++ pyReprList ignored ++ " not yet supported"))) ∧
    (∀ (kind : KeyKind) (cur : Option String) (sthis sk : String)
        (scope : Option Expression) (te : Bool) (li : Option Expression),
      pyUpper sthis = (if kind = .foreign then "IMPORTED" else kind.str) ++ " KEYS" →
      sk ≠ "" → sk ≠ "SCHEMA" →
      show_keys (.showE sthis (some sk) scope te li) cur kind
        = .error (.notImplemented
            ("SHOW PRIMARY KEYS with " ++ sk ++ " not yet supported"))) := by
  refine ⟨?_, ?_, ?_⟩
  · intro subj pt pb r p o pa m h
    have hgt : 2 + [r, p, o, pa, m].countP Option.isSome > 3 := by omega
    simp [regex_replace, hgt]
  · intro s u name ignored h1 h2 h3
    simp [create_user, h1, h2, h3]
  · intro kind cur sthis sk scope te li h1 h2 h3
    simp [show_keys, h1, h2, h3]

/-- C2 witness: the three unsupported constructs at concrete inputs. -/
theorem unsupported_constructs_raise_witness :
    regex_replace (.regexpReplace (.column (.ident "s" false)) (.lit "p" true)
        (some (.lit "r" true)) (some (.lit "2" false)) none none none)
      = .error (.notImplemented
          "REGEXP_REPLACE with additional parameters (eg: <position>, <occurrence>, <parameters>) not supported")
    ∧ create_user (.commandStr "CREATE" "USER jim DEFAULT_ROLE = 'x'")
      = .error (.notImplemented
          "`CREATE USER` with ['DEFAULT_ROLE', '=', ''x''] not yet supported")
    ∧ show_keys (.showE "PRIMARY KEYS" (some "ACCOUNT") none false none) (some "db1") .primary
      = .error (.notImplemented "SHOW PRIMARY KEYS with ACCOUNT not yet supported") := by
  refine ⟨?_, ?_, ?_⟩
  · exact unsupported_constructs_raise.1 _ _ _ _ _ _ _ _ (by decide)
  · have h := unsupported_constructs_raise.2.1 "USER jim DEFAULT_ROLE = 'x'" "USER" "jim"
      ["DEFAULT_ROLE", "=", "'x'"] (by decide) (by decide) (by decide)
    simpa using h
  · have h := unsupported_constructs_raise.2.2 .primary (some "db1") "PRIMARY KEYS" "ACCOUNT"
      none false none (by decide) (by decide) (by decide)
    simpa using h

/-- C6: evaluating `regex_substr` on `REGEXP_SUBSTR(a, 'x(y)', 1, 1, 'e')`
— the `e` modifier present, the group argument absent — produces group
number 0, not 1: the code checks for `'e'` in the parameters string only
after `'e'` has been stripped from it, so the group-1 branch is
unreachable.  (The subject is sliced from position 1, the occurrence is
converted to the zero-based index 0, and the parameters literal is left
empty after stripping.) -/
theorem regex_substr_group_default_eval :
    regex_substr (.regexpExtract (.column (.ident "a" false)) (.lit "x(y)" true)
        (some (.lit "1" false)) (some (.lit "1" false)) (some (.lit "e" true)) none)
      = .ok (.bracket
          (.anonymous "regexp_extract_all"
            [.bracket (.column (.ident "a" false)) [.slice (.lit "1" false)],
             .lit "x(y)" true, .lit "0" false, .lit "" true])
          [.lit "0" false]) := rfl

/-- C9: `upper_case_unquoted_identifiers` is idempotent on every node (in
particular every identifier node); unquoted identifiers are upper-cased and
quoted identifiers are left unchanged. -/
theorem upper_case_unquoted_identifiers_idempotent :
    (∀ e, upper_case_unquoted_identifiers (upper_case_unquoted_identifiers e)
        = upper_case_unquoted_identifiers e) ∧
    (∀ (s : String),
      upper_case_unquoted_identifiers (.ident s false) = .ident (pyUpper s) false) ∧
    (∀ (s : String),
      upper_case_unquoted_identifiers (.ident s true) = .ident s true) := by
  refine ⟨?_, fun s => rfl, fun s => rfl⟩
  intro e
  cases e <;> try rfl
  case ident s q =>
    cases q
    · simp [upper_case_unquoted_identifiers, pyUpper_idem]
    · rfl

/-- C1: `show_objects_tables` and `tag` never raise on any node; each rule
of the embedded catalog returns a node that does not match its pattern
unchanged (identity), in particular `show_objects_tables` on any non-SHOW
OBJECTS/TABLES node and `tag` on any Show/AlterTable/Command node it does
not rewrite. -/
theorem rules_total_identity_on_nonmatch :
    (∀ e cur, exceptOk (show_objects_tables e cur) = true) ∧
    (∀ e cur, isShowObjectsTablesMatch e = false → show_objects_tables e cur = .ok e) ∧
    (∀ e, exceptOk (tag e) = true) ∧
    (∀ e, isTagMatch e = false → tag e = .ok e) ∧
    (∀ e db_path, isCreateDatabaseMatch e = false → create_database e db_path = .ok e) ∧
    (∀ e cur, isSetSchemaMatch e = false → set_schema e cur = .ok e) ∧
    (∀ e, isRegexReplaceMatch e = false → regex_replace e = .ok e) ∧
    (∀ e, isRegexSubstrMatch e = false → regex_substr e = .ok e) ∧
    (∀ e, isToDecimalMatch e = false → to_decimal e = .ok e) ∧
    (∀ e, isCreateUserMatch e = false → create_user e = .ok e) ∧
    (∀ e cur kind, isShowKeysMatch kind e = false → show_keys e cur kind = .ok e) := by
  refine ⟨?_, ?_, ?_, ?_, ?_, ?_, ?_, ?_, ?_, ?_, ?_⟩
  · intro e cur
    cases e <;> try rfl
    case showE s sk sc te li =>
      simp only [show_objects_tables]
      split
      · rfl
      · rfl
  · intro e cur h
    cases e <;> try rfl
    case showE s sk sc te li =>
      have hng : ¬(pyUpper s = "OBJECTS" ∨ pyUpper s = "TABLES") := by
        simpa [isShowObjectsTablesMatch] using h
      simp [show_objects_tables, hng]
  · intro e
    cases e <;> try rfl
    case alterTable t acts =>
      simp only [tag]
      split
      · split
        · rfl
        · rfl
      · rfl
    case commandStr c cexp =>
      simp only [tag]
      split
      · rfl
      · rfl
  · intro e h
    cases e <;> try rfl
    case alterTable t acts =>
      by_cases he : acts.isEmpty
      · simp [tag, he]
      · have hna : (acts.any fun a =>
            match a with
            | .setE t => t
            | _ => false) = false := by
          simpa [isTagMatch, he] using h
        simp [tag, he, hna]
    case commandStr c cexp =>
      by_cases hc : cexp = ""
      · simp [tag, hc]
      · have hns : pyContains (pyUpper cexp) "SET TAG" = false := by
          simpa [isTagMatch, hc] using h
        simp [tag, hc, hns]
  · intro e db_path h
    cases e <;> try rfl
    case create k t =>
      have : ¬(pyUpper (pyStrOpt k) = "DATABASE") := by
        simpa [isCreateDatabaseMatch] using h
      simp [create_database, this]
  · intro e cur h
    cases e <;> try rfl
    case use kind this =>
      match kind with
      | none => rfl
      | some (.varE kname) =>
        have : ¬(kname ≠ "" ∧ (pyUpper kname = "SCHEMA" ∨ pyUpper kname = "DATABASE")) := by
          by_cases hk : kname = ""
          · simp [hk]
          · simpa [isSetSchemaMatch, hk] using h
        simp [set_schema, this]
      | some (.lit a b) => rfl
      | some (.ident a b) => rfl
      | some .nullE => rfl
      | some (.column a) => rfl
      | some (.table a b) => rfl
      | some (.use a b) => rfl
      | some (.commandStr a b) => rfl
      | some (.commandNode a b c) => rfl
      | some (.create a b) => rfl
      | some (.showE a b c d f) => rfl
      | some (.alterTable a b) => rfl
      | some (.setE a) => rfl
      | some (.bracket a b) => rfl
      | some (.jsonExtract a b) => rfl
      | some (.regexpReplace a b c d f g i) => rfl
      | some (.regexpExtract a b c d f g) => rfl
      | some (.anonymous a b) => rfl
      | some (.toNumber a b c d) => rfl
      | some (.cast a b) => rfl
      | some (.dataType a b c d) => rfl
      | some (.struct a) => rfl
      | some (.propertyEq a b) => rfl
      | some (.arrayE a) => rfl
      | some (.slice a) => rfl
      | some (.parsedSql a b) => rfl
  · intro e h
    cases e <;> try rfl
    case regexpReplace t pat r p o pa m =>
      have : isLiteral pat = false := by simpa [isRegexReplaceMatch] using h
      cases pat <;> first
        | rfl
        | simp [isLiteral] at this
  · intro e h
    cases e <;> try rfl
    case regexpExtract a b p o pa g =>
      simp [isRegexSubstrMatch] at h
  · intro e h
    cases e <;> try rfl
    case toNumber a b c d =>
      simp [isToDecimalMatch] at h
    case anonymous nm es =>
      have : ¬(pyUpper nm = "TO_DECIMAL" ∨ pyUpper nm = "TO_NUMERIC") := by
        simpa [isToDecimalMatch] using h
      simp [to_decimal, this]
  · intro e h
    cases e <;> try rfl
    case commandStr cthis cexp =>
      by_cases hc : cthis = "CREATE"
      · have : pyStartsWith (pyUpper (pyStrip cexp)) "USER" = false := by
          simpa [isCreateUserMatch, hc] using h
        simp [create_user, hc, this]
      · simp [create_user, hc]
  · intro e cur kind h
    cases e <;> try rfl
    case showE s sk sc te li =>
      have : ¬(pyUpper s
          = (if kind = KeyKind.foreign then "IMPORTED" else kind.str) ++ " KEYS") := by
        simpa [isShowKeysMatch] using h
      simp [show_keys, this]

/-- C1 witness: concrete non-matching nodes pass through each rule
unchanged, and `show_objects_tables`/`tag` succeed on a matching node too. -/
theorem rules_total_identity_on_nonmatch_witness :
    exceptOk (show_objects_tables (.showE "OBJECTS" none none true none) none) = true
    ∧ show_objects_tables (.showE "USERS" none none false none) none
      = .ok (.showE "USERS" none none false none)
    ∧ exceptOk (tag (.alterTable (.table (.ident "t" false) none) [.setE true])) = true
    ∧ tag (.alterTable (.table (.ident "t" false) none) [.setE false])
      = .ok (.alterTable (.table (.ident "t" false) none) [.setE false])
    ∧ tag (.commandStr "ALTER" "SESSION SET x = 1") = .ok (.commandStr "ALTER" "SESSION SET x = 1")
    ∧ create_database (.create (some "TABLE") (.table (.ident "t" false) none)) none
      = .ok (.create (some "TABLE") (.table (.ident "t" false) none))
    ∧ set_schema (.use (some (.varE "WAREHOUSE")) (some (.table (.ident "w" false) none))) none
      = .ok (.use (some (.varE "WAREHOUSE")) (some (.table (.ident "w" false) none)))
    ∧ regex_replace (.regexpReplace (.column (.ident "s" false)) (.column (.ident "p" false))
        none none none none none)
      = .ok (.regexpReplace (.column (.ident "s" false)) (.column (.ident "p" false))
          none none none none none)
    ∧ regex_substr (.lit "1" false) = .ok (.lit "1" false)
    ∧ to_decimal (.anonymous "TO_CHAR" [.lit "1" false]) = .ok (.anonymous "TO_CHAR" [.lit "1" false])
    ∧ create_user (.commandStr "CREATE" "ROLE admin") = .ok (.commandStr "CREATE" "ROLE admin")
    ∧ show_keys (.showE "UNIQUE KEYS" none none false none) none .primary
      = .ok (.showE "UNIQUE KEYS" none none false none) := by
  refine ⟨rules_total_identity_on_nonmatch.1 _ _, ?_, rules_total_identity_on_nonmatch.2.2.1 _,
    ?_, ?_, ?_, ?_, ?_, ?_, ?_, ?_, ?_⟩
  · exact rules_total_identity_on_nonmatch.2.1 _ _ (by decide)
  · exact rules_total_identity_on_nonmatch.2.2.2.1 _ (by decide)
  · exact rules_total_identity_on_nonmatch.2.2.2.1 _ (by decide)
  · exact rules_total_identity_on_nonmatch.2.2.2.2.1 _ _ (by decide)
  · exact rules_total_identity_on_nonmatch.2.2.2.2.2.1 _ _ (by decide)
  · exact rules_total_identity_on_nonmatch.2.2.2.2.2.2.1 _ (by decide)
  · exact rules_total_identity_on_nonmatch.2.2.2.2.2.2.2.1 _ (by decide)
  · exact rules_total_identity_on_nonmatch.2.2.2.2.2.2.2.2.1 _ (by decide)
  · exact rules_total_identity_on_nonmatch.2.2.2.2.2.2.2.2.2.1 _ (by decide)
  · exact rules_total_identity_on_nonmatch.2.2.2.2.2.2.2.2.2.2 _ _ .primary (by decide)

/-- A null-free node is not the null literal. -/
theorem isNullE_eq_false_of_noNull : ∀ {e}, noNull e = true → isNullE e = false := by
  intro e h
  cases e <;> first
    | rfl
    | simp [noNull] at h

/-- A null-free child list contains no null literal. -/
theorem anyNull_false_of_noNullL : ∀ {l}, noNullL l = true → l.any isNullE = false := by
  intro l h
  induction l with
  | nil => rfl
  | cons c cs ih =>
    simp only [noNullL, Bool.and_eq_true] at h
    simp [List.any_cons, isNullE_eq_false_of_noNull h.1, ih h.2]

/-- A null-free optional child contains no null literal. -/
theorem anyNull_false_of_noNullO : ∀ {o}, noNullO o = true → o.toList.any isNullE = false := by
  intro o h
  cases o with
  | none => rfl
  | some c => simpa using isNullE_eq_false_of_noNull h

/-- A null-free node has no direct null child, so `object_construct`'s loop
never pops it from its parent. -/
theorem hasNullChild_false_of_noNull : ∀ {e}, noNull e = true → hasNullChild e = false := by
  intro e h
  cases e <;>
    simp_all [hasNullChild, directChildren, noNull, noNullO, noNullL, List.any_append,
      List.any_cons, isNullE_eq_false_of_noNull, anyNull_false_of_noNullO,
      anyNull_false_of_noNullL]

/-- `popNullParents` is the identity on null-free trees. -/
theorem popNullParents_eq_self : ∀ (e : Expression), noNull e = true → popNullParents e = e := by
  apply popNullParents.induct
    (fun e => noNull e = true → popNullParents e = e)
    (fun l => noNullL l = true → popL l = l)
    (fun o => noNullO o = true → popO o = o)
  all_goals
    intros
    simp_all [popNullParents, popL, popO, noNull, noNullO, noNullL,
      hasNullChild_false_of_noNull]

/-- A null-free struct member is not a `key := NULL` member. -/
theorem isNullValueMember_false_of_noNull :
    ∀ {c}, noNull c = true → isNullValueMember c = false := by
  intro c h
  cases c <;> try rfl
  case propertyEq k v =>
    cases v with
    | none => rfl
    | some w =>
      cases w <;> first
        | rfl
        | simp [noNull, noNullO] at h

/-- On a member list in which nulls occur only as direct member values,
`object_construct`'s pop loop behaves as a filter dropping exactly the
`key := NULL` members. -/
theorem popL_eq_filter :
    ∀ (es : List Expression),
      (∀ c ∈ es, noNull c = true ∨ ∃ k, c = .propertyEq k (some .nullE) ∧ noNull k = true) →
      popL es = es.filter (fun c => !isNullValueMember c) := by
  intro es h
  induction es with
  | nil => rfl
  | cons c cs ih =>
    have hcs : ∀ d ∈ cs, noNull d = true
        ∨ ∃ k, d = .propertyEq k (some .nullE) ∧ noNull k = true :=
      fun d hd => h d (List.mem_cons_of_mem _ hd)
    rcases h c (List.mem_cons_self _ _) with hc | ⟨k, rfl, hk⟩
    · have h1 : hasNullChild c = false := hasNullChild_false_of_noNull hc
      have h2 : isNullValueMember c = false := isNullValueMember_false_of_noNull hc
      simp [popL, h1, h2, popNullParents_eq_self c hc, ih hcs, List.filter_cons]
    · have h1 : hasNullChild (.propertyEq k (some .nullE)) = true := by
        simp [hasNullChild, directChildren, isNullE]
      simp [popL, h1, ih hcs, List.filter_cons, isNullValueMember]

/-- C8 counterexample: in `STRUCT(a := 1, b := ARRAY(NULL))` the member `b`
does not have a literal-null value, yet `object_construct` does not leave it
intact: the loop pops every parent of a null literal, so the ARRAY(NULL)
value is removed from member `b` entirely. -/
theorem object_construct_nested_null_counterexample :
    object_construct (.struct
        [.propertyEq (.ident "a" false) (some (.lit "1" false)),
         .propertyEq (.ident "b" false) (some (.arrayE [.nullE]))])
      = .anonymous "TO_JSON"
          [.struct
            [.propertyEq (.ident "a" false) (some (.lit "1" false)),
             .propertyEq (.ident "b" false) none]]
    ∧ (Expression.anonymous "TO_JSON"
          [.struct
            [.propertyEq (.ident "a" false) (some (.lit "1" false)),
             .propertyEq (.ident "b" false) none]])
      ≠ .anonymous "TO_JSON"
          [.struct
            [.propertyEq (.ident "a" false) (some (.lit "1" false)),
             .propertyEq (.ident "b" false) (some (.arrayE [.nullE]))]] := by
  refine ⟨rfl, ?_⟩
  simp

/-- C8 as amended: for a STRUCT whose null literals occur only as direct
member values, `object_construct` drops exactly the members whose value is a
literal null, leaves every other member intact, and wraps the result in
TO_JSON.  (With nulls nested deeper, the loop instead strips the nearest
enclosing parent of each null out of the member, see the counterexample.) -/
theorem object_construct_mapping :
    ∀ (es : List Expression),
      (∀ c ∈ es, noNull c = true ∨ ∃ k, c = .propertyEq k (some .nullE) ∧ noNull k = true) →
      object_construct (.struct es)
        = .anonymous "TO_JSON" [.struct (es.filter (fun c => !isNullValueMember c))] := by
  intro es h
  simp [object_construct, popL_eq_filter es h]

/-- C8 witness: `STRUCT(a := 1, b := NULL)` drops exactly the member `b` and
wraps the rest in TO_JSON. -/
theorem object_construct_mapping_witness :
    object_construct (.struct
        [.propertyEq (.ident "a" false) (some (.lit "1" false)),
         .propertyEq (.ident "b" false) (some .nullE)])
      = .anonymous "TO_JSON"
          [.struct [.propertyEq (.ident "a" false) (some (.lit "1" false))]] := by
  have h := object_construct_mapping
    [.propertyEq (.ident "a" false) (some (.lit "1" false)),
     .propertyEq (.ident "b" false) (some .nullE)]
    (by
      intro c hc
      simp only [List.mem_cons, List.not_mem_nil, or_false] at hc
      rcases hc with rfl | rfl
      · left
        decide
      · right
        exact ⟨.ident "b" false, rfl, by decide⟩)
  exact h.trans rfl

end Fakesnow
